import Mathlib

/-!
Shallow embedding of the authentication/session layer of the school
attendance app: the `AuthProvider` session synchronizer and auth actions
(src/unnamed/part_000), the `ProtectedRoute` gate (src/unnamed/part_001)
and the `useAuth` hook.  Remote calls (supabase) are abstracted as
oracles passed in as arguments; the list of tables queried and the list
of remote operations performed are returned explicitly so that claims
about which tables are touched can be stated.
-/

namespace SchoolAuth

/-- The session user as seen by the provider: the remote id together with
the optional `user_metadata.role` claim (a raw string, possibly absent). -/
structure AuthUser where
  id : String
  role : Option String
deriving DecidableEq, Repr

/-- A row returned by a role-table query (`select * ... .single()`);
every column the provider reads is optional, as in the dynamic source. -/
structure ProfileRow where
  id : Option String
  name : Option String
  full_name : Option String
  email : Option String
  roll_no : Option String
  standard : Option String
  «class» : Option String
  linked_student_roll : Option String
deriving DecidableEq, Repr

/-- The `UserProfile` record built by `fetchUserProfile` (src/types). -/
structure UserProfile where
  id : Option String
  role : String
  name : Option String
  email : Option String
  roll_no : Option String
  standard : Option String
  «class» : Option String
  linked_student_roll : Option String
deriving DecidableEq, Repr

/-- JavaScript `a || b` on optional strings: `a` unless it is absent or
the empty string (both falsy), in which case `b`. -/
def jsOr (a b : Option String) : Option String :=
  match a with
  | some s => if s = "" then b else some s
  | none => b

/-- The shared provider state: the four `useState` cells of `AuthProvider`. -/
structure AuthState where
  user : Option AuthUser
  profile : Option UserProfile
  loading : Bool
  error : Option String
deriving DecidableEq, Repr

/-- Outcome of a `select * from t where id = uid .single()` query:
a row, the PGRST116 no-rows error, or any other query failure. -/
inductive QueryResult where
  | row (d : ProfileRow)
  | noRows
  | failure (msg : String)
deriving DecidableEq, Repr

/-- The remote table-query oracle: table name and user id to result. -/
def DB := String → String → QueryResult

/-- The distinguished not-found message set on a PGRST116 result. -/
def noProfileMsg : String := "No profile found. Please contact admin."

/-- The role-to-table switch of `fetchUserProfile` (part_000 lines 90-104):
`faculty`, `student`, `parent` map to their tables, anything else falls to
the `default` branch (modelled as `none`). -/
def tableForRole (r : String) : Option String :=
  if r = "faculty" then some "faculty"
  else if r = "student" then some "students"
  else if r = "parent" then some "parents"
  else none

/-- The profile record construction of part_000 lines 135-144:
`name` is `data.name || data.full_name`, `role` is the session role
string, the rest is copied from the row. -/
def mkUserProfile (role : String) (d : ProfileRow) : UserProfile :=
  { id := d.id
    role := role
    name := jsOr d.name d.full_name
    email := d.email
    roll_no := d.roll_no
    standard := d.standard
    «class» := d.«class»
    linked_student_roll := d.linked_student_roll }

/-- Handling of a query result inside the `try` block of
`fetchUserProfile` (part_000 lines 114-149): PGRST116 sets the
distinguished message and clears the profile, any other query error is
thrown (`Except.error`), a returned row replaces the profile and clears
the error. -/
def queryOutcomeTry (role : String) (res : QueryResult) (s : AuthState) :
    Except String AuthState :=
  match res with
  | .noRows => .ok { s with error := some noProfileMsg, profile := none }
  | .failure msg => .error msg
  | .row d => .ok { s with profile := some (mkUserProfile role d), error := none }

/-- The `try` block of `fetchUserProfile` (part_000 lines 77-149), up to
the final catch: returns the new state (or the thrown error) together
with the list of tables queried. -/
def fetchProfileTry (u : AuthUser) (db : DB) (s : AuthState) :
    Except String AuthState × List String :=
  match u.role with
  | none => (.ok { s with error := some "No role found in user profile" }, [])
  | some r =>
    if r = "" then
      (.ok { s with error := some "No role found in user profile" }, [])
    else
      match tableForRole r with
      | none => (.ok { s with error := some "Invalid user role" }, [])
      | some t => (queryOutcomeTry r (db t u.id) s, [t])

/-- `fetchUserProfile` (part_000 lines 76-155): the `try` block wrapped in
the catch-all that stores the thrown message in `error` and clears the
profile.  Returns the resulting state and the tables queried; the
function never propagates an exception. -/
def fetchUserProfile (u : AuthUser) (db : DB) (s : AuthState) :
    AuthState × List String :=
  match fetchProfileTry u db s with
  | (.ok s2, ts) => (s2, ts)
  | (.error msg, ts) => ({ s with error := some msg, profile := none }, ts)

/-- The sign-up role union type of `SignUpData` (src/types): the TS type
admits exactly these three values, and the `signUp` switch has no default. -/
inductive Role where
  | faculty
  | student
  | parent
deriving DecidableEq, Repr

/-- The role-to-table switch of `signUp` (part_000 lines 182-193). -/
def roleTableName : Role → String
  | .faculty => "faculty"
  | .student => "students"
  | .parent => "parents"

/-- The `SignUpData` payload (src/types). -/
structure SignUpData where
  role : Role
  full_name : String
  email : String
  password : String
deriving DecidableEq, Repr

/-- A remote operation performed by an auth action, recorded in order. -/
inductive RemoteOp where
  | createIdentity (email : String) (fullName : String) (role : Role)
  | insertRow (table : String) (id : String)
deriving DecidableEq, Repr

/-- `signUp` (part_000 lines 157-230).  `remote` is the result of
`supabase.auth.signUp`: an error message, or the optional id of the newly
created user (`data.user` may be null).  `insert` is the table-insert
oracle (table, id to optional error).  Returns the resulting state, the
error re-thrown to the caller (if any), and the ordered remote operations
attempted. -/
def signUp (remote : Except String (Option String))
    (insert : String → String → Option String)
    (email : String) (userData : SignUpData) (s : AuthState) :
    AuthState × Option String × List RemoteOp :=
  let s1 : AuthState := { s with loading := true, error := none }
  let created : RemoteOp := .createIdentity email userData.full_name userData.role
  match remote with
  | .error m => ({ s1 with error := some m, loading := false }, some m, [created])
  | .ok none => ({ s1 with loading := false }, none, [created])
  | .ok (some uid) =>
    let t := roleTableName userData.role
    match insert t uid with
    | some m =>
      ({ s1 with error := some m, loading := false }, some m,
        [created, .insertRow t uid])
    | none =>
      ({ s1 with loading := false }, none, [created, .insertRow t uid])

/-- `signIn` (part_000 lines 232-257): delegates to
`supabase.auth.signInWithPassword`; on failure stores the message and
re-throws it; performs no profile fetch itself. -/
def signIn (remote : Except String String) (s : AuthState) :
    AuthState × Option String :=
  let s1 : AuthState := { s with loading := true, error := none }
  match remote with
  | .ok _ => ({ s1 with loading := false }, none)
  | .error m => ({ s1 with error := some m, loading := false }, some m)

/-- `signOut` (part_000 lines 259-281).  `remote` is the optional error of
`supabase.auth.signOut`.  On success user, profile and error are cleared;
on failure the thrown error is caught and stored in `error` and is not
re-thrown (second component is the re-thrown error, always `none`). -/
def signOut (remote : Option String) (s : AuthState) :
    AuthState × Option String :=
  let s1 : AuthState := { s with loading := true }
  match remote with
  | none =>
    ({ s1 with user := none, profile := none, error := none, loading := false },
      none)
  | some m => ({ s1 with error := some m, loading := false }, none)

/-! ### The synchronizer as a small-step machine

To state the teardown/in-flight-fetch claim the `SIGNED_IN` handler of
the `onAuthStateChange` subscription (part_000 lines 49-67) is split at
its only external suspension point, the awaited table query inside
`fetchUserProfile`: the prefix up to issuing the query runs when the
event is delivered, and the continuation runs when the query resolves.
Teardown (the effect cleanup, lines 69-73) clears the `mounted` flag and
unsubscribes, and may interleave between the two halves.  The handler
checks `mounted` on entry (line 52); the continuation inside
`fetchUserProfile` performs its state writes without re-checking it,
exactly as in the source. -/

/-- An in-flight profile query: the session role and the table queried. -/
structure PendingFetch where
  uid : String
  role : String
  table : String
deriving DecidableEq, Repr

/-- Machine state: provider state, the `mounted` liveness flag, whether
the event subscription is still registered, and any in-flight query. -/
structure SyncState where
  auth : AuthState
  mounted : Bool
  subscribed : Bool
  pending : Option PendingFetch
deriving DecidableEq, Repr

/-- Events delivered to the machine: the two observed auth events, the
teardown of the effect, and the resolution of an in-flight query. -/
inductive SyncEvent where
  | signedIn (u : AuthUser)
  | signedOut
  | teardown
  | resolve (res : QueryResult)
deriving DecidableEq, Repr

/-- Result handling of the resolved query (part_000 lines 114-153),
catch included: same as the atomic `fetchUserProfile` after its query. -/
def queryOutcome (role : String) (res : QueryResult) (s : AuthState) : AuthState :=
  match queryOutcomeTry role res s with
  | .ok s2 => s2
  | .error msg => { s with error := some msg, profile := none }

/-- One step of the synchronizer machine.  `signedIn`/`signedOut` run only
while subscribed, and the handler returns at once when `mounted` is
false (line 52).  `resolve` applies the continuation of the in-flight
fetch — including its state writes and the trailing `setLoading(false)`
(line 66) — with no `mounted` check, as in the source. -/
def stepEvent (st : SyncState) (e : SyncEvent) : SyncState :=
  match e with
  | .teardown => { st with mounted := false, subscribed := false }
  | .signedOut =>
    if st.subscribed && st.mounted then
      let a : AuthState :=
        { st.auth with user := none, profile := none, error := none, loading := false }
      { st with auth := a }
    else st
  | .signedIn u =>
    if st.subscribed && st.mounted then
      let a : AuthState := { st.auth with user := some u, error := none }
      let noRole : SyncState :=
        { st with auth :=
            { a with error := some "No role found in user profile", loading := false } }
      match u.role with
      | none => noRole
      | some r =>
        if r = "" then noRole
        else
          match tableForRole r with
          | none =>
            { st with auth :=
                { a with error := some "Invalid user role", loading := false } }
          | some t => { st with auth := a, pending := some ⟨u.id, r, t⟩ }
    else st
  | .resolve res =>
    match st.pending with
    | none => st
    | some p =>
      let a := queryOutcome p.role res st.auth
      { st with auth := { a with loading := false }, pending := none }

/-- Run a sequence of events from a state. -/
def runEvents (st : SyncState) (es : List SyncEvent) : SyncState :=
  es.foldl stepEvent st

/-! ### The exposed context value, the route gate and the hook -/

/-- The `AuthContextType` value assembled at part_000 lines 283-292
(actions omitted; `isAuthenticated` is a stored field, as in the source). -/
structure AuthContextType where
  user : Option AuthUser
  profile : Option UserProfile
  loading : Bool
  error : Option String
  isAuthenticated : Bool
deriving DecidableEq, Repr

/-- The `value` construction (part_000 lines 283-292):
`isAuthenticated: !!user && !!profile`. -/
def mkAuthValue (user : Option AuthUser) (profile : Option UserProfile)
    (loading : Bool) (error : Option String) : AuthContextType :=
  { user := user
    profile := profile
    loading := loading
    error := error
    isAuthenticated := user.isSome && profile.isSome }

/-- JavaScript truthiness of an optional string (`error &&` in the gate):
present and non-empty. -/
def jsTruthy (o : Option String) : Bool :=
  match o with
  | some s => decide (s ≠ "")
  | none => false

/-- The four things `ProtectedRoute` can render. -/
inductive RouteView where
  | loadingView
  | authForm
  | profileNotFound
  | content
deriving DecidableEq, Repr

/-- `ProtectedRoute` (part_001 lines 11-69): the nested early returns, in
source order.  A pure function of the snapshot. -/
def ProtectedRoute (s : AuthContextType) : RouteView :=
  if s.loading then .loadingView
  else if jsTruthy s.error && s.user.isNone then .authForm
  else if !s.isAuthenticated then .authForm
  else if s.error = some noProfileMsg then .profileNotFound
  else .content

/-- Modelled from the spec (section 4.3): the route gate chooses the first
applicable state in the priority order loading, error-without-user,
unauthenticated, profile-not-found, authenticated; "error is set" read as
the error field being non-null. -/
def routeGateSpec (s : AuthContextType) : RouteView :=
  if s.loading then .loadingView
  else if s.error.isSome && s.user.isNone then .authForm
  else if !s.isAuthenticated then .authForm
  else if s.error = some noProfileMsg then .profileNotFound
  else .content

/-- `useAuth` (part_000 lines 301-307): throws when the context is
undefined, returns the context value otherwise. -/
def useAuth (context : Option AuthContextType) : Except String AuthContextType :=
  match context with
  | none => .error "useAuth must be used within an AuthProvider"
  | some c => .ok c

namespace AuthCtx

/-! The duplicated provider of src/context/AuthContext.tsx keeps only
`user` and `loading`.  Its `fetchUserProfile` (lines 61-100) receives the
bare user id — the session's role metadata plays no part — and probes
tables sequentially.  Each `.single()` there destructures only `data`
and ignores the error, so a failed or empty probe simply yields no row. -/

/-- A probe of this variant: the row, or nothing (no row found, or a
query error whose ignored `data` is null). -/
def ProbeDB := String → String → Option ProfileRow

/-- Which probe set the user, with the row it returned:
`setUser({...faculty, role: 'faculty'})`, `setUser(userData)` from the
`users` table, or `setUser({...parent, role: 'parent'})`. -/
inductive FetchedUser where
  | fromFaculty (d : ProfileRow)
  | fromUsers (d : ProfileRow)
  | fromParents (d : ProfileRow)
deriving DecidableEq, Repr

/-- `fetchUserProfile` of src/context/AuthContext.tsx (lines 61-100):
probes `faculty`, then `users`, then `parents` for the user id, stopping
at the first row found.  Returns the user value set (if any) and the
tables queried, in order. -/
def fetchUserProfile (userId : String) (db : ProbeDB) :
    Option FetchedUser × List String :=
  match db "faculty" userId with
  | some d => (some (.fromFaculty d), ["faculty"])
  | none =>
    match db "users" userId with
    | some d => (some (.fromUsers d), ["faculty", "users"])
    | none =>
      match db "parents" userId with
      | some d => (some (.fromParents d), ["faculty", "users", "parents"])
      | none => (none, ["faculty", "users", "parents"])

end AuthCtx

/-! ### Helper lemmas -/

/-- The catch around the try block changes the resulting state, never the
list of tables queried. -/
theorem fetchUserProfile_trace (u : AuthUser) (db : DB) (s : AuthState) :
    (fetchUserProfile u db s).2 = (fetchProfileTry u db s).2 := by
  rcases h : fetchProfileTry u db s with ⟨e, ts⟩
  cases e <;> simp [fetchUserProfile, h]

/-! ### Claims -/

/-- C1 counterexample: the src/context/AuthContext.tsx fetcher, run for a
session whose metadata role claim is student (it is handed only the id),
against tables where the student's row exists in `students` and nowhere
else: it queries `faculty`, `users` and `parents`, never `students`, and
comes back empty-handed — refuting "exactly one table, the one fixed by
the role-to-table mapping, and no other". -/
theorem authctx_fetch_student_misses_students_table :
    (AuthCtx.fetchUserProfile (AuthUser.mk "U1" (some "student")).id
        (fun t _ => if t = "students" then
            some ⟨some "U1", some "Asha", none, none, some "STD-A-01", none, none, none⟩
          else none)).2 = ["faculty", "users", "parents"]
    ∧ ("students" : String) ∉
        (AuthCtx.fetchUserProfile (AuthUser.mk "U1" (some "student")).id
          (fun t _ => if t = "students" then
              some ⟨some "U1", some "Asha", none, none, some "STD-A-01", none, none, none⟩
            else none)).2
    ∧ (AuthCtx.fetchUserProfile (AuthUser.mk "U1" (some "student")).id
        (fun t _ => if t = "students" then
            some ⟨some "U1", some "Asha", none, none, some "STD-A-01", none, none, none⟩
          else none)).1 = none := by
  decide

/-- C1 amended: the part_000 synchronizer queries exactly the one table
fixed by the role-to-table mapping for a recognized role claim; the
duplicated fetcher in src/context/AuthContext.tsx instead ignores the
role claim and probes `faculty`, then `users`, then `parents`, stopping
at the first row, so its trace is a prefix of that sequence and it never
queries `students`. -/
theorem fetch_queries_exactly_role_table (uid : String) (db : DB) (s : AuthState)
    (pdb : AuthCtx.ProbeDB) :
    ((fetchUserProfile ⟨uid, some "faculty"⟩ db s).2 = ["faculty"]
      ∧ (fetchUserProfile ⟨uid, some "student"⟩ db s).2 = ["students"]
      ∧ (fetchUserProfile ⟨uid, some "parent"⟩ db s).2 = ["parents"])
    ∧ (("students" : String) ∉ (AuthCtx.fetchUserProfile uid pdb).2
      ∧ ((AuthCtx.fetchUserProfile uid pdb).2 = ["faculty"]
        ∨ (AuthCtx.fetchUserProfile uid pdb).2 = ["faculty", "users"]
        ∨ (AuthCtx.fetchUserProfile uid pdb).2 = ["faculty", "users", "parents"])) := by
  constructor
  · refine ⟨?_, ?_, ?_⟩ <;> rw [fetchUserProfile_trace] <;> rfl
  · cases h1 : pdb "faculty" uid <;> cases h2 : pdb "users" uid <;>
      cases h3 : pdb "parents" uid <;>
      simp [AuthCtx.fetchUserProfile, h1, h2, h3]

/-- C3 counterexample: a failed remote sign-out leaves the previously
signed-in user and profile in place, so the sign-out action does not end
with user and profile null on every outcome. -/
theorem signOut_failure_keeps_user :
    ¬((signOut (some "network error")
          ⟨some ⟨"U1", some "student"⟩,
            some (mkUserProfile "student"
              ⟨some "U1", some "Asha", none, none, some "STD-A-01", none, none, none⟩),
            false, none⟩).1.user = none
      ∧ (signOut (some "network error")
          ⟨some ⟨"U1", some "student"⟩,
            some (mkUserProfile "student"
              ⟨some "U1", some "Asha", none, none, some "STD-A-01", none, none, none⟩),
            false, none⟩).1.profile = none) := by
  decide

/-- C3 amended: when the remote sign-out succeeds, user, profile and error
are cleared; when it fails, user and profile are left unchanged and the
error message is stored; loading ends false either way. -/
theorem signOut_clears_only_on_success (s : AuthState) (m : String) :
    ((signOut none s).1.user = none ∧ (signOut none s).1.profile = none
      ∧ (signOut none s).1.error = none ∧ (signOut none s).1.loading = false)
    ∧ ((signOut (some m) s).1.user = s.user
      ∧ (signOut (some m) s).1.profile = s.profile
      ∧ (signOut (some m) s).1.error = some m
      ∧ (signOut (some m) s).1.loading = false) := by
  simp [signOut]

/-- C4 counterexample: a session without a role claim sets the terminal
error and issues no query, but a profile already in the snapshot is left
in place, not cleared to null. -/
theorem missing_role_leaves_stale_profile :
    (fetchUserProfile ⟨"U2", none⟩ (fun _ _ => QueryResult.noRows)
        ⟨some ⟨"U1", some "student"⟩,
          some (mkUserProfile "student"
            ⟨some "U1", some "Asha", none, none, some "STD-A-01", none, none, none⟩),
          false, none⟩).1.error = some "No role found in user profile"
    ∧ (fetchUserProfile ⟨"U2", none⟩ (fun _ _ => QueryResult.noRows)
        ⟨some ⟨"U1", some "student"⟩,
          some (mkUserProfile "student"
            ⟨some "U1", some "Asha", none, none, some "STD-A-01", none, none, none⟩),
          false, none⟩).2 = []
    ∧ (fetchUserProfile ⟨"U2", none⟩ (fun _ _ => QueryResult.noRows)
        ⟨some ⟨"U1", some "student"⟩,
          some (mkUserProfile "student"
            ⟨some "U1", some "Asha", none, none, some "STD-A-01", none, none, none⟩),
          false, none⟩).1.profile ≠ none := by
  decide

/-- C4 amended: an absent or empty role claim sets the terminal no-role
error, an unrecognized role sets the invalid-role error, and in both
cases no table is queried and the profile field is left unchanged (hence
null whenever it was already null); on a query outcome the profile is
cleared on not-found and on failure, and replaced on success. -/
theorem fetch_role_error_and_profile_updates (uid r m : String) (db : DB)
    (s : AuthState) (hr : r ≠ "") (htab : tableForRole r = none) :
    (fetchUserProfile ⟨uid, none⟩ db s
        = ({ s with error := some "No role found in user profile" }, []))
    ∧ (fetchUserProfile ⟨uid, some ""⟩ db s
        = ({ s with error := some "No role found in user profile" }, []))
    ∧ (fetchUserProfile ⟨uid, some r⟩ db s
        = ({ s with error := some "Invalid user role" }, []))
    ∧ ((fetchUserProfile ⟨uid, some "student"⟩ (fun _ _ => QueryResult.noRows) s).1.profile
        = none)
    ∧ ((fetchUserProfile ⟨uid, some "student"⟩ (fun _ _ => QueryResult.failure m) s).1.profile
        = none)
    ∧ (∀ d : ProfileRow,
        (fetchUserProfile ⟨uid, some "student"⟩ (fun _ _ => QueryResult.row d) s).1.profile
          = some (mkUserProfile "student" d)) := by
  refine ⟨rfl, rfl, ?_, rfl, rfl, fun d => rfl⟩
  simp [fetchUserProfile, fetchProfileTry, hr, htab]

/-- C4 witness: the amended statement at role "admin". -/
theorem fetch_role_error_and_profile_updates_witness :
    ("admin" : String) ≠ "" ∧ tableForRole "admin" = none ∧
      (fetchUserProfile ⟨"U1", some "admin"⟩ (fun _ _ => QueryResult.noRows)
          ⟨none, none, true, none⟩).1.error = some "Invalid user role" := by
  refine ⟨by decide, by decide, ?_⟩
  have h := fetch_role_error_and_profile_updates "U1" "admin" "x"
    (fun _ _ => QueryResult.noRows) ⟨none, none, true, none⟩ (by decide) (by decide)
  rw [h.2.2.1]

/-- C5: a query that finds no row sets the distinguished not-found message
with profile null, and does so without throwing inside the try block,
while any other query failure is thrown and its message lands in the
shared error field. -/
theorem notFound_distinguished (uid r t m : String) (s : AuthState)
    (h : tableForRole r = some t) :
    (fetchUserProfile ⟨uid, some r⟩ (fun _ _ => QueryResult.noRows) s
        = ({ s with error := some noProfileMsg, profile := none }, [t]))
    ∧ ((fetchProfileTry ⟨uid, some r⟩ (fun _ _ => QueryResult.noRows) s).1
        = .ok { s with error := some noProfileMsg, profile := none })
    ∧ (fetchUserProfile ⟨uid, some r⟩ (fun _ _ => QueryResult.failure m) s
        = ({ s with error := some m, profile := none }, [t]))
    ∧ ((fetchProfileTry ⟨uid, some r⟩ (fun _ _ => QueryResult.failure m) s).1
        = .error m) := by
  have hr : r ≠ "" := by
    rintro rfl
    simp [tableForRole] at h
  refine ⟨?_, ?_, ?_, ?_⟩ <;>
    simp [fetchUserProfile, fetchProfileTry, queryOutcomeTry, hr, h]

/-- C5 witness: the spec scenario, role parent with an empty parents table. -/
theorem notFound_distinguished_witness :
    tableForRole "parent" = some "parents" ∧
      fetchUserProfile ⟨"U7", some "parent"⟩ (fun _ _ => QueryResult.noRows)
          ⟨some ⟨"U7", some "parent"⟩, none, false, none⟩
        = (⟨some ⟨"U7", some "parent"⟩, none, false, some noProfileMsg⟩, ["parents"]) := by
  refine ⟨by decide, ?_⟩
  exact (notFound_distinguished "U7" "parent" "parents" "x"
    ⟨some ⟨"U7", some "parent"⟩, none, false, none⟩ (by decide)).1

/-- C2: after a `SIGNED_IN` event dispatches a table query, tearing the
synchronizer down does not stop the resolution of that in-flight fetch
from writing to the shared state: with the liveness flag already false,
resolving the query still installs a profile.  Evaluates the machine on
the concrete trace signedIn, teardown, resolve. -/
theorem teardown_inflight_fetch_still_writes :
    (runEvents ⟨⟨none, none, true, none⟩, true, true, none⟩
        [.signedIn ⟨"U1", some "student"⟩, .teardown]).mounted = false
    ∧ (runEvents ⟨⟨none, none, true, none⟩, true, true, none⟩
        [.signedIn ⟨"U1", some "student"⟩, .teardown]).auth.profile = none
    ∧ (runEvents ⟨⟨none, none, true, none⟩, true, true, none⟩
        [.signedIn ⟨"U1", some "student"⟩, .teardown,
          .resolve (.row ⟨some "U1", some "Asha", none, none, some "STD-A-01", none, none, none⟩)]).auth.profile
      = some (mkUserProfile "student"
          ⟨some "U1", some "Asha", none, none, some "STD-A-01", none, none, none⟩) := by
  decide

/-- C6: when remote identity creation succeeds with a fresh id and the
subsequent insert into the role table fails, sign-up re-throws the insert
error, leaves the profile untouched, and the remote trace is exactly
identity creation followed by one insert into the role table at the new
id. -/
theorem signUp_insert_failure_rejects (email : String) (ud : SignUpData)
    (s : AuthState) (uid e : String) (insert : String → String → Option String)
    (h : insert (roleTableName ud.role) uid = some e) :
    signUp (.ok (some uid)) insert email ud s
      = ({ s with error := some e, loading := false }, some e,
          [.createIdentity email ud.full_name ud.role,
            .insertRow (roleTableName ud.role) uid]) := by
  simp [signUp, h]

/-- C6 witness: the spec scenario, a faculty sign-up whose insert fails. -/
theorem signUp_insert_failure_rejects_witness :
    ((fun (_ : String) (_ : String) => some "duplicate key") "faculty" "U9"
        = some "duplicate key")
    ∧ signUp (.ok (some "U9")) (fun _ _ => some "duplicate key") "a@b.c"
          ⟨.faculty, "Jo", "a@b.c", "pw"⟩ ⟨none, none, false, none⟩
        = (⟨none, none, false, some "duplicate key"⟩, some "duplicate key",
            [.createIdentity "a@b.c" "Jo" .faculty, .insertRow "faculty" "U9"]) := by
  refine ⟨rfl, ?_⟩
  exact signUp_insert_failure_rejects "a@b.c" ⟨.faculty, "Jo", "a@b.c", "pw"⟩
    ⟨none, none, false, none⟩ "U9" "duplicate key" (fun _ _ => some "duplicate key") rfl

/-- C7 counterexample: a failing remote sign-out is recorded in the shared
error field but is not re-thrown to the caller, so it is not the case
that every failure of the three auth actions is re-thrown. -/
theorem signOut_failure_not_rethrown :
    (signOut (some "network error") ⟨none, none, false, none⟩).2 = none
    ∧ (signOut (some "network error") ⟨none, none, false, none⟩).1.error
        = some "network error" := by
  decide

/-- C7 amended: sign-up re-throws both its failure modes (identity
creation failure, insert failure) and sign-in re-throws its failure,
while sign-out never re-throws (its failure only lands in the error
field), and a profile-fetch failure is swallowed into the error field
with the profile cleared, never propagated. -/
theorem action_error_propagation (m e uid email : String) (ud : SignUpData)
    (s : AuthState) (r : Option String)
    (insert : String → String → Option String) :
    ((signUp (.error m) insert email ud s).2.1 = some m)
    ∧ ((signUp (.ok (some uid)) (fun _ _ => some e) email ud s).2.1 = some e)
    ∧ ((signIn (.error m) s).2 = some m)
    ∧ ((signOut r s).2 = none)
    ∧ ((signOut (some m) s).1.error = some m)
    ∧ (fetchUserProfile ⟨uid, some "student"⟩ (fun _ _ => QueryResult.failure m) s
        = ({ s with error := some m, profile := none }, ["students"])) := by
  refine ⟨rfl, rfl, rfl, ?_, rfl, rfl⟩
  cases r <;> rfl

/-- C8: on every snapshot assembled by the provider, the route gate picks
its view by the fixed priority order loading, error-without-user,
unauthenticated, profile-not-found, authenticated; it is a pure function
of the snapshot. -/
theorem route_gate_priority (user : Option AuthUser) (profile : Option UserProfile)
    (loading : Bool) (error : Option String) :
    ProtectedRoute (mkAuthValue user profile loading error)
      = routeGateSpec (mkAuthValue user profile loading error) := by
  cases loading <;> cases user <;> cases profile <;> rcases error with _ | e <;>
    simp [ProtectedRoute, routeGateSpec, mkAuthValue, jsTruthy]

/-- C9: the exposed snapshot is authenticated exactly when both the user
and the profile are non-null. -/
theorem isAuthenticated_iff (user : Option AuthUser) (profile : Option UserProfile)
    (loading : Bool) (error : Option String) :
    (mkAuthValue user profile loading error).isAuthenticated = true
      ↔ user ≠ none ∧ profile ≠ none := by
  cases user <;> cases profile <;> simp [mkAuthValue]

/-- C10: outside a provider the hook throws the fixed message; inside one
it returns the context value unchanged. -/
theorem useAuth_contract :
    useAuth none = .error "useAuth must be used within an AuthProvider"
    ∧ ∀ c : AuthContextType, useAuth (some c) = .ok c :=
  ⟨rfl, fun _ => rfl⟩

end SchoolAuth
